import Mathlib

/-!
A shallow embedding of the aggregation pipeline of
`src/missed_sales_dashboard_v2.py` (the SmartChain missed-sales dashboard),
together with theorems checking the specification's claims about it.

Tables are modelled as lists of rows.  Cells that may hold nulls or
unparseable text are modelled by small inductive types (`DateVal`, `NumVal`);
numeric quantities are `Int`; geographic coordinates are `ℚ`.
-/

namespace SmartChain

/-- A raw date cell as loaded: null, unparseable text, or a calendar date
(year, month, day).  `pd.to_datetime(..., errors='coerce')` turns the first
two into null (`NaT`). -/
inductive DateVal where
  | null : DateVal
  | malformed (s : String) : DateVal
  | valid (y m d : Nat) : DateVal
deriving DecidableEq, Repr

/-- A raw numeric cell as loaded: null, unparseable text, or a number.
`pd.to_numeric(..., errors='coerce')` turns the first two into `NaN`. -/
inductive NumVal where
  | null : NumVal
  | malformed (s : String) : NumVal
  | num (q : Int) : NumVal
deriving DecidableEq, Repr

/-- One row of the missed-sales table
(columns CustomerNbr, AantalBesteld, Date, GEMISTEVERKOOPFLG, Reason). -/
structure MissedRow where
  customerNbr : Int
  aantalBesteld : NumVal
  date : DateVal
  gemisteVerkoopFlg : Int
  reason : Option String
deriving DecidableEq, Repr

/-- One row of the actual-sales table
(columns CustomerNbr, SaleQuantity, Date). -/
structure ActualRow where
  customerNbr : Int
  saleQuantity : NumVal
  date : DateVal
deriving DecidableEq, Repr

/-- One row of the customer table
(columns CustomerNbr, CustomerType, CustomerCity, CustomerPostalCode). -/
structure CustomerRow where
  customerNbr : Int
  customerType : String
  customerCity : String
  customerPostalCode : String
deriving DecidableEq, Repr

/-- One row of the postal-code lookup table
(columns CustomerPostalCode, Latitude, Longitude); coordinates may be null. -/
structure PostalRow where
  customerPostalCode : String
  latitude : Option ℚ
  longitude : Option ℚ
deriving DecidableEq, Repr

/-- Lines 74-95: the Dutch-to-English translation dictionary for reasons. -/
def reason_translation : List (String × String) :=
  [("Product niet verkrijgbaar bij leverancier", "Product not available from supplier"),
   ("Product ontbreekt hier, maar nog aanwezig in andere eenheid (niet doorbesteld)",
    "Product missing here but present in another unit (not reordered)"),
   ("aantal aangepast omwille van quota", "quantity adjusted due to quota"),
   ("dels doorbesteld", "dels reordered"),
   ("doorbesteld", "reordered"),
   ("geen prodcode SH,SD,SV,CH, CV voor webshop", "no prodcode SH,SD,SV,CH, CV for webshop"),
   ("klanten met leveringsplicht enkel prodcode SH,SD,SV,CH, CV",
    "customers with delivery obligation only prodcode SH,SD,SV,CH, CV"),
   ("product geblokkeerd voor deze klant /selective distributie",
    "product blocked for this customer / selective distribution"),
   ("product is vervangen", "product has been replaced"),
   ("product mag bidir niet besteld worden of enkel TO",
    "product may not be ordered bidir or only TO"),
   ("stock 0", "stock 0"),
   ("stock 0 omwille van quota", "stock 0 due to quota"),
   ("substitutieproduct zal geleverd worden", "substitute product will be delivered"),
   ("vervangingsproduct zal geleverd worden", "replacement product will be delivered"),
   ("Product is uit de handel (stocktoeak = UH)", "Product is out of business (stocktoeak = UH)"),
   ("code niet doorbestellen stat op bij product", "code do not reorder listed on product"),
   ("fout bij read", "error during read"),
   ("product op vloer dus niet doorbestellen", "product on floor so do not reorder"),
   ("niet doorbestellen dus aantal aangepast", "do not reorder, so quantity adjusted"),
   ("tot lijnen > 99999", "up to lines > 99999")]

/-- Lines 158-169: the translation dictionary for customer types. -/
def customer_type_translations : List (String × String) :=
  [("Diversen", "Various"),
   ("Kliniek", "Clinic"),
   ("Lid", "Member"),
   ("Leveringsplicht", "Delivery Duty"),
   ("Niet lid", "Non-member"),
   ("Personeel", "Staff"),
   ("Speciale klanten EXPORT", "Special Customers EXPORT"),
   ("Transfer Orders", "Transfer Orders"),
   ("Vergunninghouder", "Permit Holder"),
   ("Webshop", "Webshop")]

/-- `pd.to_datetime(col, errors='coerce')` on one cell. -/
def toDatetime : DateVal → DateVal
  | .valid y m d => .valid y m d
  | _ => .null

/-- `pd.to_numeric(col, errors='coerce')` on one cell. -/
def toNumeric : NumVal → Option Int
  | .num q => some q
  | _ => none

/-- Lookup in an association list (a Python dict with distinct keys). -/
def assocLookup : List (String × String) → String → Option String
  | [], _ => none
  | (k, v) :: rest, s => if s = k then some v else assocLookup rest s

/-- `Series.map(dict)` on one cell: keys found in the dict are replaced by
their value, every other label (and null) becomes null. -/
def mapTranslate (d : List (String × String)) : Option String → Option String
  | none => none
  | some s => assocLookup d s

/-- `Series.replace(dict)` on one cell: keys found in the dict are replaced
by their value, every other label passes through unchanged. -/
def replaceTranslate (d : List (String × String)) (s : String) : String :=
  (assocLookup d s).getD s

/-- Line 67: `pd.to_datetime` applied in place to the Date column of
`missed_sales`. -/
def missed_sales_dated (missed_sales : List MissedRow) : List MissedRow :=
  missed_sales.map fun r => { r with date := toDatetime r.date }

/-- Line 68: `pd.to_datetime` applied in place to the Date column of
`actual_sales`. -/
def actual_sales_dated (actual_sales : List ActualRow) : List ActualRow :=
  actual_sales.map fun r => { r with date := toDatetime r.date }

/-- Lines 71 and 98: keep rows with GEMISTEVERKOOPFLG = 1 and translate the
Reason column via `reason_translation` (unmapped labels become null). -/
def missed_sales_filtered (missed_sales : List MissedRow) : List MissedRow :=
  ((missed_sales_dated missed_sales).filter fun r => r.gemisteVerkoopFlg == 1).map
    fun r => { r with reason := mapTranslate reason_translation r.reason }

/-- One row of `missed_sales_clean`: non-null date (split into year, month,
day), non-null translated reason, quantity coerced to numeric. -/
structure MissedCleanRow where
  customerNbr : Int
  aantalBesteld : Option Int
  year : Nat
  month : Nat
  day : Nat
  reason : String
deriving DecidableEq, Repr

/-- Lines 105-114: drop rows with null Date or Reason, coerce AantalBesteld
to numeric, and record the month period of the Date. -/
def missed_sales_clean (missed_sales : List MissedRow) : List MissedCleanRow :=
  (missed_sales_filtered missed_sales).filterMap fun r =>
    match r.date, r.reason with
    | .valid y m d, some rs => some ⟨r.customerNbr, toNumeric r.aantalBesteld, y, m, d, rs⟩
    | _, _ => none

/-- Sum of a list of nullable quantities; nulls contribute zero, matching
the NaN-skipping `sum()` of a pandas groupby. -/
def optSum (l : List (Option Int)) : Int :=
  (l.map fun o => o.getD 0).sum

/-- `groupby(key).sum()`: one output row per distinct key of the input,
carrying the NaN-skipping sum of the quantities of the rows with that key. -/
def groupSum {κ : Type} [DecidableEq κ] (keyed : List (κ × Option Int)) : List (κ × Int) :=
  ((keyed.map Prod.fst).dedup).map fun k =>
    (k, optSum ((keyed.filter fun p => p.1 == k).map Prod.snd))

/-- The (month, reason) grouping key of a clean missed-sale row. -/
def periodKey (r : MissedCleanRow) : (Nat × Nat) × String := ((r.year, r.month), r.reason)

/-- Lines 117-121: group the clean missed-sale rows by (DatePeriod, Reason)
and sum AantalBesteld. -/
def missed_sales_by_time_reason (missed_sales : List MissedRow) :
    List (((Nat × Nat) × String) × Int) :=
  groupSum ((missed_sales_clean missed_sales).map fun r => (periodKey r, r.aantalBesteld))

/-- Line 152: `pd.merge(missed_sales_clean, customer_data, on='CustomerNbr',
how='inner')`. -/
def innerJoinMissed (rows : List MissedCleanRow) (customer_data : List CustomerRow) :
    List (MissedCleanRow × CustomerRow) :=
  rows.flatMap fun r =>
    (customer_data.filter fun c => c.customerNbr == r.customerNbr).map fun c => (r, c)

/-- Line 155: `pd.merge(actual_sales, customer_data, on='CustomerNbr',
how='inner')`. -/
def innerJoinActual (rows : List ActualRow) (customer_data : List CustomerRow) :
    List (ActualRow × CustomerRow) :=
  rows.flatMap fun r =>
    (customer_data.filter fun c => c.customerNbr == r.customerNbr).map fun c => (r, c)

/-- Lines 172 and 180: translate the customer type of each merged missed-sale
row and group by it, summing AantalBesteld. -/
def missed_sales_by_customer_type (missed_sales : List MissedRow)
    (customer_data : List CustomerRow) : List (String × Int) :=
  groupSum ((innerJoinMissed (missed_sales_clean missed_sales) customer_data).map fun p =>
    (replaceTranslate customer_type_translations p.2.customerType, p.1.aantalBesteld))

/-- Lines 173 and 181: translate the customer type of each merged actual-sale
row and group by it, summing SaleQuantity. -/
def actual_sales_by_customer_type (actual_sales : List ActualRow)
    (customer_data : List CustomerRow) : List (String × Int) :=
  groupSum ((innerJoinActual (actual_sales_dated actual_sales) customer_data).map fun p =>
    (replaceTranslate customer_type_translations p.2.customerType, toNumeric p.1.saleQuantity))

/-- Line 215: group the merged missed-sale rows by CustomerCity, summing
AantalBesteld (the heatmap table). -/
def missed_sales_by_city (missed_sales : List MissedRow)
    (customer_data : List CustomerRow) : List (String × Int) :=
  groupSum ((innerJoinMissed (missed_sales_clean missed_sales) customer_data).map fun p =>
    (p.2.customerCity, p.1.aantalBesteld))

/-- Line 216: group the merged actual-sale rows by CustomerCity, summing
SaleQuantity (the heatmap table). -/
def actual_sales_by_city (actual_sales : List ActualRow)
    (customer_data : List CustomerRow) : List (String × Int) :=
  groupSum ((innerJoinActual (actual_sales_dated actual_sales) customer_data).map fun p =>
    (p.2.customerCity, toNumeric p.1.saleQuantity))

/-- A row of the map path, parameterized by the coordinate type: `Unit`
before the postal join, `Option ℚ` after the left join, `ℚ` after fillna. -/
structure GeoRow (γ : Type) where
  customerNbr : Int
  qty : NumVal
  date : DateVal
  customerCity : String
  customerPostalCode : String
  latitude : γ
  longitude : γ
deriving DecidableEq, Repr

/-- Lines 252-258: the DuckDB query joining the missed-sales file (rows with
GEMISTEVERKOOPFLG = 1) with the customer file on CustomerNbr.  The query
reads the files themselves, i.e. the tables as loaded. -/
def missed_sales_query (missed_sales : List MissedRow)
    (customer_data : List CustomerRow) : List (GeoRow Unit) :=
  (missed_sales.filter fun r => r.gemisteVerkoopFlg == 1).flatMap fun r =>
    (customer_data.filter fun c => c.customerNbr == r.customerNbr).map fun c =>
      ⟨r.customerNbr, r.aantalBesteld, r.date, c.customerCity, c.customerPostalCode, (), ()⟩

/-- Lines 260-265: the DuckDB query joining the actual-sales file with the
customer file on CustomerNbr. -/
def actual_sales_query (actual_sales : List ActualRow)
    (customer_data : List CustomerRow) : List (GeoRow Unit) :=
  actual_sales.flatMap fun r =>
    (customer_data.filter fun c => c.customerNbr == r.customerNbr).map fun c =>
      ⟨r.customerNbr, r.saleQuantity, r.date, c.customerCity, c.customerPostalCode, (), ()⟩

/-- Lines 277-278: left merge with the postal table on CustomerPostalCode;
unmatched rows keep null coordinates, matched rows are repeated once per
matching postal row. -/
def leftJoinPostal (rows : List (GeoRow Unit)) (postal_code_data : List PostalRow) :
    List (GeoRow (Option ℚ)) :=
  rows.flatMap fun r =>
    if (postal_code_data.filter fun p => p.customerPostalCode == r.customerPostalCode).isEmpty then
      [⟨r.customerNbr, r.qty, r.date, r.customerCity, r.customerPostalCode, none, none⟩]
    else
      (postal_code_data.filter fun p => p.customerPostalCode == r.customerPostalCode).map fun p =>
        ⟨r.customerNbr, r.qty, r.date, r.customerCity, r.customerPostalCode,
          p.latitude, p.longitude⟩

/-- Lines 281-284: `fillna(0)` on both coordinate columns. -/
def fillCoords (rows : List (GeoRow (Option ℚ))) : List (GeoRow ℚ) :=
  rows.map fun r =>
    ⟨r.customerNbr, r.qty, r.date, r.customerCity, r.customerPostalCode,
      r.latitude.getD 0, r.longitude.getD 0⟩

/-- Lines 287-288: drop rows whose Latitude or Longitude equals the 0
sentinel. -/
def geoFilter (rows : List (GeoRow ℚ)) : List (GeoRow ℚ) :=
  rows.filter fun r => !(r.latitude == 0) && !(r.longitude == 0)

/-- The postal-code stage of the map path: left join, fillna(0), filter. -/
def mapClean (rows : List (GeoRow Unit)) (postal_code_data : List PostalRow) :
    List (GeoRow ℚ) :=
  geoFilter (fillCoords (leftJoinPostal rows postal_code_data))

/-- Lines 301-302: `max(total / 10000, 1)` (true division, floored at 1). -/
def markerSizeOf (t : Int) : ℚ := max ((t : ℚ) / 10000) 1

/-- One row of a city-with-geo output table. -/
structure CityGeoOut where
  customerCity : String
  latitude : ℚ
  longitude : ℚ
  total : Int
  markerSize : ℚ
deriving DecidableEq, Repr

/-- Lines 297-302: group by (CustomerCity, Latitude, Longitude), sum the
quantity, and attach the marker size. -/
def by_city_geo (rows : List (GeoRow ℚ)) : List CityGeoOut :=
  (groupSum (rows.map fun r => ((r.customerCity, r.latitude, r.longitude), toNumeric r.qty))).map
    fun p => ⟨p.1.1, p.1.2.1, p.1.2.2, p.2, markerSizeOf p.2⟩

/-- The missed-sales city-with-geo (map) table, lines 252-301. -/
def missed_sales_by_city_map (missed_sales : List MissedRow)
    (customer_data : List CustomerRow) (postal_code_data : List PostalRow) :
    List CityGeoOut :=
  by_city_geo (mapClean (missed_sales_query missed_sales customer_data) postal_code_data)

/-- The actual-sales city-with-geo (map) table, lines 260-302. -/
def actual_sales_by_city_map (actual_sales : List ActualRow)
    (customer_data : List CustomerRow) (postal_code_data : List PostalRow) :
    List CityGeoOut :=
  by_city_geo (mapClean (actual_sales_query actual_sales customer_data) postal_code_data)

/-- The four tables loaded at lines 57-60. -/
structure LoadedTables where
  missed_sales : List MissedRow
  actual_sales : List ActualRow
  customer_data : List CustomerRow
  postal_code_data : List PostalRow
deriving DecidableEq, Repr

/-- The seven aggregated tables the script derives. -/
structure Outputs where
  byTimeReason : List (((Nat × Nat) × String) × Int)
  missedByType : List (String × Int)
  actualByType : List (String × Int)
  missedByCity : List (String × Int)
  actualByCity : List (String × Int)
  missedByCityMap : List CityGeoOut
  actualByCityMap : List CityGeoOut
deriving DecidableEq, Repr

/-- The script as a state transformer on the four loaded tables.  Lines
67-68 overwrite the Date columns of the two sales tables in place; lines
247-249 cast columns already modelled as `String` to string, which is the
identity here; every other step only derives new tables. -/
def runPipeline (s : LoadedTables) : LoadedTables × Outputs :=
  (⟨missed_sales_dated s.missed_sales, actual_sales_dated s.actual_sales,
    s.customer_data, s.postal_code_data⟩,
   ⟨missed_sales_by_time_reason s.missed_sales,
    missed_sales_by_customer_type s.missed_sales s.customer_data,
    actual_sales_by_customer_type s.actual_sales s.customer_data,
    missed_sales_by_city s.missed_sales s.customer_data,
    actual_sales_by_city s.actual_sales s.customer_data,
    missed_sales_by_city_map s.missed_sales s.customer_data s.postal_code_data,
    actual_sales_by_city_map s.actual_sales s.customer_data s.postal_code_data⟩)

/-- Index of the last occurrence of `c` in `l`, or `-1` (CPython `rfind`). -/
def rfindIdx (c : Char) : List Char → Int
  | [] => -1
  | a :: rest =>
      let r := rfindIdx c rest
      if 0 ≤ r then r + 1 else if a = c then 0 else -1

/-- `os.path.splitext(p)[1]` on POSIX: the suffix starting at the last dot
of the basename, empty when that dot does not exist or only leading dots
precede it. -/
def splitextExt (p : String) : String :=
  let l := p.toList
  let sepIdx : Int := rfindIdx '/' l
  let dotIdx : Int := rfindIdx '.' l
  if sepIdx < dotIdx then
    let nameIdx := (sepIdx + 1).toNat
    if ((l.drop nameIdx).take (dotIdx.toNat - nameIdx)).any (fun ch => ch != '.') then
      String.mk (l.drop dotIdx.toNat)
    else ""
  else ""

/-- Lines 19-36: dispatch on the file extension; `.csv` and `.parquet` are
read by the corresponding (external) readers, every other extension raises
`ValueError("Unsupported file format")`. -/
def load_data {α : Type} (readCsv readParquet : String → α) (file_path : String) :
    Except String α :=
  let file_extension := splitextExt file_path
  if file_extension = ".csv" then Except.ok (readCsv file_path)
  else if file_extension = ".parquet" then Except.ok (readParquet file_path)
  else Except.error "Unsupported file format"

/-- The total recorded for key `k` in a grouped table, or none when the key
has no group. -/
def lookupKey {κ : Type} [DecidableEq κ] (tbl : List (κ × Int)) (k : κ) : Option Int :=
  (tbl.find? fun p => p.1 == k).map Prod.snd

/-- The total a keyed row list assigns to `k`: none when no row carries the
key, otherwise the NaN-skipping sum of the matching quantities. -/
def groupVal {κ : Type} [DecidableEq κ] (keyed : List (κ × Option Int)) (k : κ) : Option Int :=
  if (keyed.filter fun p => p.1 == k).isEmpty then none
  else some (optSum ((keyed.filter fun p => p.1 == k).map Prod.snd))

/-- The (total, marker size) recorded for a (city, latitude, longitude) key
in a city-with-geo table. -/
def lookupGeo (tbl : List CityGeoOut) (k : String × ℚ × ℚ) : Option (Int × ℚ) :=
  (tbl.find? fun o => decide ((o.customerCity, o.latitude, o.longitude) = k)).map
    fun o => (o.total, o.markerSize)

/-- The grand total of a month in the month/reason table: the sum of the
totals of every reason group of that month. -/
def monthTotalOut (tbl : List (((Nat × Nat) × String) × Int)) (m : Nat × Nat) : Int :=
  ((tbl.filter fun p => p.1.1 == m).map Prod.snd).sum

/-- The sum claim C1 describes, read literally: AantalBesteld over rows with
GEMISTEVERKOOPFLG = 1, a date that parses into month `m`, a non-null Reason,
and a parseable quantity. -/
def claimedMonthSum (missed_sales : List MissedRow) (m : Nat × Nat) : Int :=
  (missed_sales.filterMap fun r =>
    if r.gemisteVerkoopFlg = 1 then
      match r.date, r.reason, r.aantalBesteld with
      | .valid y mo _, some _, .num q => if (y, mo) = m then some q else none
      | _, _, _ => none
    else none).sum

/-- As `claimedMonthSum`, but demanding in addition that the Reason is a key
of the reason translation dictionary. -/
def mappedMonthSum (missed_sales : List MissedRow) (m : Nat × Nat) : Int :=
  (missed_sales.filterMap fun r =>
    if r.gemisteVerkoopFlg = 1 then
      match r.date, mapTranslate reason_translation r.reason, r.aantalBesteld with
      | .valid y mo _, some _, .num q => if (y, mo) = m then some q else none
      | _, _, _ => none
    else none).sum

/-- The whole filter-and-normalize stage producing `missed_sales_clean`,
expressed as a single per-row function. -/
def cleanOf (r : MissedRow) : Option MissedCleanRow :=
  if r.gemisteVerkoopFlg = 1 then
    match toDatetime r.date, mapTranslate reason_translation r.reason with
    | .valid y m d, some rs => some ⟨r.customerNbr, toNumeric r.aantalBesteld, y, m, d, rs⟩
    | _, _ => none
  else none

/-- Does a missed-sale row have at least one matching customer record? -/
def hasCustomerM (customer_data : List CustomerRow) (r : MissedRow) : Bool :=
  customer_data.any fun c => c.customerNbr == r.customerNbr

/-- Does an actual-sale row have at least one matching customer record? -/
def hasCustomerA (customer_data : List CustomerRow) (r : ActualRow) : Bool :=
  customer_data.any fun c => c.customerNbr == r.customerNbr

/-- Does a merged map-path row have at least one matching postal record? -/
def hasPostal {γ : Type} (postal_code_data : List PostalRow) (r : GeoRow γ) : Bool :=
  postal_code_data.any fun p => p.customerPostalCode == r.customerPostalCode

/-- The total quantity a city-with-geo table reports for one city, summed
over the city's coordinate groups. -/
def cityTotalGeo (tbl : List CityGeoOut) (city : String) : Int :=
  ((tbl.filter fun o => o.customerCity == city).map fun o => o.total).sum

/-- Is a date cell something other than unparseable text?  On such cells
`pd.to_datetime(..., errors='coerce')` is the identity. -/
def dateNotMalformed : DateVal → Bool
  | .malformed _ => false
  | _ => true

end SmartChain

namespace SmartChain

/-! ### Generic list lemmas used by the grouping and join proofs -/

theorem sum_filter_or_of_disjoint {α : Type} (l : List α) (f : α → Int) (p q : α → Bool)
    (h : ∀ a ∈ l, ¬(p a = true ∧ q a = true)) :
    ((l.filter fun a => p a || q a).map f).sum
      = ((l.filter p).map f).sum + ((l.filter q).map f).sum := by
  induction l with
  | nil => simp
  | cons a l ih =>
      have hd := h a (by simp)
      have ht : ∀ x ∈ l, ¬(p x = true ∧ q x = true) := fun x hx => h x (by simp [hx])
      cases hp : p a <;> cases hq : q a <;>
        simp [List.filter_cons, hp, hq, ih ht] <;> ring_nf
      · exact absurd ⟨hp, hq⟩ hd

theorem map_eq_self_of_fixed {α : Type} (l : List α) (f : α → α) (h : ∀ a ∈ l, f a = a) :
    l.map f = l := by
  induction l with
  | nil => rfl
  | cons a l ih =>
      rw [List.map_cons, h a (by simp), ih fun x hx => h x (by simp [hx])]

theorem map_filter_swap {α β : Type} (l : List α) (f : α → β) (p : α → Bool) (q : β → Bool)
    (h : ∀ a ∈ l, p a = q (f a)) : (l.filter p).map f = (l.map f).filter q := by
  induction l with
  | nil => rfl
  | cons a l ih =>
      have ht := ih fun x hx => h x (by simp [hx])
      cases hp : p a
      · have : q (f a) = false := (h a (by simp)) ▸ hp
        simp [List.filter_cons, hp, this, ht]
      · have : q (f a) = true := (h a (by simp)) ▸ hp
        simp [List.filter_cons, hp, this, ht]

theorem filterMap_filter_comm {α β : Type} (l : List α) (F : α → Option β) (p : α → Bool)
    (q : β → Bool) (h : ∀ a b, F a = some b → p a = q b) :
    (l.filter p).filterMap F = (l.filterMap F).filter q := by
  induction l with
  | nil => rfl
  | cons a l ih =>
      cases hF : F a with
      | none =>
          cases hp : p a <;>
            simp [List.filter_cons, List.filterMap_cons, hp, hF, ih]
      | some b =>
          have hpq := h a b hF
          cases hp : p a
          · have : q b = false := hpq ▸ hp
            simp [List.filter_cons, List.filterMap_cons, hp, hF, this, ih]
          · have : q b = true := hpq ▸ hp
            simp [List.filter_cons, List.filterMap_cons, hp, hF, this, ih]

theorem filterMap_filter_of_none {α β : Type} (l : List α) (F : α → Option β) (p : α → Bool)
    (h : ∀ a ∈ l, p a = false → F a = none) :
    (l.filter p).filterMap F = l.filterMap F := by
  induction l with
  | nil => rfl
  | cons a l ih =>
      have ht := ih fun x hx => h x (by simp [hx])
      cases hp : p a
      · have : F a = none := h a (by simp) hp
        simp [List.filter_cons, List.filterMap_cons, hp, this, ht]
      · simp [List.filter_cons, List.filterMap_cons, hp, ht]

theorem join_filter_matched {α β γ : Type} (rows : List α) (tbl : List β)
    (m : α → β → Bool) (g : α → β → γ) :
    ((rows.filter fun r => tbl.any fun c => m r c).flatMap fun r =>
        (tbl.filter fun c => m r c).map fun c => g r c)
      = rows.flatMap fun r => (tbl.filter fun c => m r c).map fun c => g r c := by
  induction rows with
  | nil => rfl
  | cons r rows ih =>
      cases hr : tbl.any fun c => m r c
      · have hnil : (tbl.filter fun c => m r c) = [] := by
          rw [List.filter_eq_nil_iff]
          intro c hc hmc
          exact (Bool.not_eq_true _).mpr hr (List.any_eq_true.mpr ⟨c, hc, hmc⟩)
        simp [List.filter_cons, hr, List.flatMap_cons, hnil, ih]
      · simp [List.filter_cons, hr, List.flatMap_cons, ih]

theorem find?_beq_self {κ : Type} [DecidableEq κ] (K : List κ) (k : κ) :
    (K.find? fun x => x == k) = if k ∈ K then some k else none := by
  induction K with
  | nil => simp
  | cons a K ih =>
      by_cases h : a = k
      · subst h
        simp [List.find?_cons]
      · rw [List.find?_cons]
        have hb : (a == k) = false := beq_eq_false_iff_ne.mpr h
        rw [hb, ih]
        by_cases hk : k ∈ K <;> simp [hk, List.mem_cons, Ne.symm h]

theorem assocLookup_mem (d : List (String × String)) (s v : String)
    (h : assocLookup d s = some v) : (s, v) ∈ d := by
  induction d with
  | nil => simp [assocLookup] at h
  | cons p d ih =>
      obtain ⟨k, w⟩ := p
      by_cases he : s = k
      · rw [assocLookup, if_pos he] at h
        obtain rfl := Option.some.inj h
        simp [he]
      · rw [assocLookup, if_neg he] at h
        exact List.mem_cons_of_mem _ (ih h)

theorem flatMap_perm_of_pointwise {α β : Type} (l : List α) (f g : α → List β)
    (hfg : ∀ a, (f a).Perm (g a)) : (l.flatMap f).Perm (l.flatMap g) := by
  induction l with
  | nil => simp
  | cons a l ih => simpa [List.flatMap_cons] using (hfg a).append ih

theorem sum_filter_congr {α : Type} (l : List α) (f : α → Int) {p q : α → Bool}
    (h : ∀ a ∈ l, p a = q a) :
    ((l.filter p).map f).sum = ((l.filter q).map f).sum := by
  rw [List.filter_congr h]

theorem sum_filter_false {α : Type} (l : List α) (f : α → Int) {p : α → Bool}
    (h : ∀ a ∈ l, p a = false) :
    ((l.filter p).map f).sum = 0 := by
  have : l.filter p = [] := by
    rw [List.filter_congr (q := fun _ => false) h]
    simp
  rw [this]
  simp

/-! ### Properties of `groupSum` -/

theorem keylist_filter_sum {κ : Type} [DecidableEq κ] (keyed : List (κ × Option Int))
    (P : κ → Bool) :
    ∀ K : List κ, K.Nodup →
      ((K.filter P).map fun k =>
          optSum ((keyed.filter fun p => p.1 == k).map Prod.snd)).sum
        = ((keyed.filter fun p => decide (p.1 ∈ K) && P p.1).map fun p => p.2.getD 0).sum := by
  intro K
  induction K with
  | nil =>
      intro _
      rw [sum_filter_false keyed _ fun a _ => by simp]
      simp
  | cons k K ih =>
      intro hnd
      obtain ⟨hk, hnd'⟩ := List.nodup_cons.mp hnd
      have hsplit :
          ((keyed.filter fun p => decide (p.1 ∈ k :: K) && P p.1).map fun p => p.2.getD 0).sum
            = ((keyed.filter fun p => (p.1 == k) && P p.1).map fun p => p.2.getD 0).sum
              + ((keyed.filter fun p => decide (p.1 ∈ K) && P p.1).map fun p => p.2.getD 0).sum := by
        rw [sum_filter_congr keyed _
          (q := fun p => ((p.1 == k) && P p.1) || (decide (p.1 ∈ K) && P p.1))]
        · exact sum_filter_or_of_disjoint keyed _ _ _ fun a _ hc => by
            obtain ⟨h1, h2⟩ := hc
            obtain ⟨he, -⟩ := Bool.and_eq_true_iff.mp h1
            obtain ⟨hm, -⟩ := Bool.and_eq_true_iff.mp h2
            exact hk (beq_iff_eq.mp he ▸ of_decide_eq_true hm)
        · intro a _
          by_cases h1 : a.1 = k <;> by_cases h2 : a.1 ∈ K <;>
            simp [h1, h2]
      have hfirst :
          ((keyed.filter fun p => (p.1 == k) && P p.1).map fun p => p.2.getD 0).sum
            = if P k then optSum ((keyed.filter fun p => p.1 == k).map Prod.snd) else 0 := by
        cases hP : P k with
        | false =>
            rw [if_neg (by simp [hP]), sum_filter_false]
            intro a _
            by_cases h1 : a.1 = k
            · simp [h1, hP]
            · simp [h1]
        | true =>
            rw [if_pos rfl, sum_filter_congr keyed _ (q := fun p => p.1 == k)]
            · simp [optSum, List.map_map, Function.comp_def]
            · intro a _
              by_cases h1 : a.1 = k
              · simp [h1, hP]
              · simp [h1]
      rw [hsplit, hfirst, ← ih hnd', List.filter_cons]
      cases hP : P k <;> simp [hP]

theorem groupSum_filter_sum {κ : Type} [DecidableEq κ] (keyed : List (κ × Option Int))
    (P : κ → Bool) :
    (((groupSum keyed).filter fun p => P p.1).map Prod.snd).sum
      = ((keyed.filter fun p => P p.1).map fun p => p.2.getD 0).sum := by
  have hcov : ∀ p ∈ keyed, (decide (p.1 ∈ (keyed.map Prod.fst).dedup) && P p.1) = P p.1 := by
    intro p hp
    have hm : p.1 ∈ (keyed.map Prod.fst).dedup :=
      List.mem_dedup.mpr (List.mem_map.mpr ⟨p, hp, rfl⟩)
    simp [hm]
  have h1 := keylist_filter_sum keyed P ((keyed.map Prod.fst).dedup) (List.nodup_dedup _)
  rw [sum_filter_congr keyed _ hcov] at h1
  rw [← h1]
  unfold groupSum
  rw [List.filter_map, List.map_map]
  rfl

theorem lookupKey_groupSum {κ : Type} [DecidableEq κ] (keyed : List (κ × Option Int)) (k : κ) :
    lookupKey (groupSum keyed) k = groupVal keyed k := by
  unfold lookupKey groupSum groupVal
  rw [List.find?_map]
  have hcomp :
      ((fun p : κ × Int => p.1 == k) ∘ fun k' =>
        (k', optSum ((keyed.filter fun p => p.1 == k').map Prod.snd))) = fun x => x == k := rfl
  rw [hcomp, find?_beq_self]
  by_cases hm : k ∈ (keyed.map Prod.fst).dedup
  · have hne : (keyed.filter fun p => p.1 == k) ≠ [] := by
      intro hnil
      obtain ⟨p, hp, hpk⟩ := List.mem_map.mp (List.mem_dedup.mp hm)
      have : p ∈ keyed.filter fun p => p.1 == k :=
        List.mem_filter.mpr ⟨hp, by simp [hpk]⟩
      simp [hnil] at this
    have hemp : (keyed.filter fun p => p.1 == k).isEmpty = false := by
      cases he : keyed.filter fun p => p.1 == k
      · exact absurd he hne
      · rfl
    simp [hm, hemp]
  · have hnil : (keyed.filter fun p => p.1 == k) = [] := by
      rw [List.filter_eq_nil_iff]
      intro p hp hpk
      exact hm (List.mem_dedup.mpr (List.mem_map.mpr ⟨p, hp, beq_iff_eq.mp hpk⟩))
    simp [hm, hnil]

theorem groupVal_perm {κ : Type} [DecidableEq κ] {keyed keyed' : List (κ × Option Int)}
    (h : keyed.Perm keyed') (k : κ) : groupVal keyed k = groupVal keyed' k := by
  have hf := h.filter fun p => p.1 == k
  have hlen := hf.length_eq
  have hemp : (keyed.filter fun p => p.1 == k).isEmpty
      = (keyed'.filter fun p => p.1 == k).isEmpty := by
    cases e1 : keyed.filter fun p => p.1 == k <;>
      cases e2 : keyed'.filter fun p => p.1 == k <;>
        rw [e1, e2] at hlen <;> simp_all
  have hsum : optSum ((keyed.filter fun p => p.1 == k).map Prod.snd)
      = optSum ((keyed'.filter fun p => p.1 == k).map Prod.snd) := by
    unfold optSum
    exact ((hf.map Prod.snd).map _).sum_eq
  unfold groupVal
  rw [hemp, hsum]

theorem filterMap_filter_eq {α β : Type} (l : List α) (p : α → Bool) (f : α → Option β) :
    (l.filter p).filterMap f = l.filterMap fun a => if p a then f a else none := by
  induction l with
  | nil => rfl
  | cons a l ih =>
      cases hp : p a <;> simp [List.filter_cons, List.filterMap_cons, hp, ih]

theorem filterMap_congr_fn {α β : Type} (l : List α) {f g : α → Option β}
    (h : ∀ a, f a = g a) : l.filterMap f = l.filterMap g := by
  induction l with
  | nil => rfl
  | cons a l ih => rw [List.filterMap_cons, List.filterMap_cons, h a, ih]

theorem missed_sales_clean_eq (ms : List MissedRow) :
    missed_sales_clean ms = ms.filterMap cleanOf := by
  unfold missed_sales_clean missed_sales_filtered missed_sales_dated
  rw [List.filterMap_map, filterMap_filter_eq, List.filterMap_map]
  refine filterMap_congr_fn ms ?_
  intro r
  by_cases hf : r.gemisteVerkoopFlg = 1
  · cases hd : r.date <;> cases hr : mapTranslate reason_translation r.reason <;>
      simp [cleanOf, toDatetime, hf, hd, hr]
  · simp [cleanOf, hf]

theorem clean_filter_sum (ms : List MissedRow) (m : Nat × Nat) :
    (((ms.filterMap cleanOf).filter fun r => (r.year, r.month) == m).map
        fun r => r.aantalBesteld.getD 0).sum = mappedMonthSum ms m := by
  induction ms with
  | nil => rfl
  | cons r ms ih =>
      unfold mappedMonthSum at *
      rw [List.filterMap_cons, List.filterMap_cons]
      by_cases hf : r.gemisteVerkoopFlg = 1
      · cases hd : r.date with
        | valid y mo dd =>
            cases hr : mapTranslate reason_translation r.reason with
            | some rs =>
                by_cases hm : (y, mo) = m
                · cases hq : r.aantalBesteld <;>
                    simp [cleanOf, toDatetime, toNumeric, hf, hd, hr, hq, hm,
                      List.filter_cons, ih]
                · cases hq : r.aantalBesteld <;>
                    simp [cleanOf, toDatetime, toNumeric, hf, hd, hr, hq, hm,
                      List.filter_cons, ih]
            | none => simp [cleanOf, toDatetime, hf, hd, hr, ih]
        | null => simp [cleanOf, toDatetime, hf, hd, ih]
        | malformed s => simp [cleanOf, toDatetime, hf, hd, ih]
      · simp [cleanOf, hf, ih]

theorem groupSum_any_key {κ : Type} [DecidableEq κ] (keyed : List (κ × Option Int)) (k : κ)
    (h : (keyed.any fun p => p.1 == k) = true) :
    ((groupSum keyed).any fun p => p.1 == k) = true := by
  obtain ⟨p, hp, hpk⟩ := List.any_eq_true.mp h
  have hm : k ∈ (keyed.map Prod.fst).dedup :=
    List.mem_dedup.mpr (List.mem_map.mpr ⟨p, hp, beq_iff_eq.mp hpk⟩)
  refine List.any_eq_true.mpr ?_
  refine ⟨(k, optSum ((keyed.filter fun p => p.1 == k).map Prod.snd)), ?_, by simp⟩
  exact List.mem_map.mpr ⟨k, hm, rfl⟩

/-! ### Claim C1 -/

/-- C1 (amended): within one calendar month, the total of
`MissedByMonthReason` over all reasons equals the sum of AantalBesteld over
the missed-sale rows of that month with GEMISTEVERKOOPFLG = 1, a parseable
non-null Date, a Reason that is a key of the reason translation dictionary,
and a parseable numeric AantalBesteld. -/
theorem C1_monthly_totals (ms : List MissedRow) (m : Nat × Nat) :
    monthTotalOut (missed_sales_by_time_reason ms) m = mappedMonthSum ms m := by
  have h := groupSum_filter_sum
      ((missed_sales_clean ms).map fun r => (periodKey r, r.aantalBesteld))
      fun k => k.1 == m
  rw [List.filter_map, List.map_map] at h
  conv at h =>
    rhs
    rw [missed_sales_clean_eq]
  exact h.trans (clean_filter_sum ms m)

/-- C1 counterexample: a flag-1 row with a parseable date, a parseable
quantity and the non-null Reason "foo" — which is absent from the reason
translation dictionary — is dropped by the aggregation, so the monthly
total is 0, while the sum the claim describes is 5. -/
theorem C1_counterexample :
    monthTotalOut (missed_sales_by_time_reason
        [⟨1, .num 5, .valid 2024 1 15, 1, some "foo"⟩]) (2024, 1) = 0
    ∧ claimedMonthSum [⟨1, .num 5, .valid 2024 1 15, 1, some "foo"⟩] (2024, 1) = 5 := by
  constructor <;> decide

/-! ### Claim C3 -/

theorem ct_values_fixed :
    ∀ p ∈ customer_type_translations,
      replaceTranslate customer_type_translations p.2 = p.2 := by decide

/-- C3 (amended): the CustomerType translation (a `replace`, under which
unmapped labels pass through) is total, deterministic and idempotent; the
Reason translation (a `map`, under which unmapped labels become null) is
total and deterministic but not idempotent. -/
theorem C3_customer_type_idempotent (s : String) :
    replaceTranslate customer_type_translations
        (replaceTranslate customer_type_translations s)
      = replaceTranslate customer_type_translations s := by
  unfold replaceTranslate
  cases h : assocLookup customer_type_translations s with
  | none => simp [h]
  | some v =>
      have hv : (s, v) ∈ customer_type_translations := assocLookup_mem _ _ _ h
      have hfix := ct_values_fixed (s, v) hv
      unfold replaceTranslate at hfix
      simp [hfix]

/-- C3 counterexample: applying the Reason translation twice to the label
"doorbesteld" yields null, while applying it once yields "reordered". -/
theorem C3_counterexample :
    mapTranslate reason_translation
        (mapTranslate reason_translation (some "doorbesteld"))
      ≠ mapTranslate reason_translation (some "doorbesteld") := by decide

/-! ### Claim C10 -/

/-- C10: `load_data` on a path whose extension is neither `.csv` nor
`.parquet` fails immediately with the error "Unsupported file format" and
produces no table; on `.csv` and `.parquet` paths it does not fail on
account of the extension. -/
theorem C10_load_data_extension {α : Type} (readCsv readParquet : String → α) (p : String) :
    (splitextExt p ≠ ".csv" → splitextExt p ≠ ".parquet" →
      load_data readCsv readParquet p = Except.error "Unsupported file format")
    ∧ (splitextExt p = ".csv" ∨ splitextExt p = ".parquet" →
      ∃ t, load_data readCsv readParquet p = Except.ok t) := by
  unfold load_data
  constructor
  · intro h1 h2
    rw [if_neg h1, if_neg h2]
  · rintro (h | h)
    · exact ⟨readCsv p, by rw [if_pos h]⟩
    · refine ⟨readParquet p, ?_⟩
      rw [if_neg (by rw [h]; decide), if_pos h]

/-- C10 witness: the script's own file paths — the `.xlsx` postal file is
rejected by `load_data` with the descriptive error, the `.parquet` customer
file is accepted. -/
theorem C10_witness :
    splitextExt "./data/CustomerCityPC.xlsx" = ".xlsx"
    ∧ load_data (fun _ => (0 : Nat)) (fun _ => 1) "./data/CustomerCityPC.xlsx"
        = Except.error "Unsupported file format"
    ∧ ∃ t, load_data (fun _ => (0 : Nat)) (fun _ => 1) "./data/Customer.parquet"
        = Except.ok t :=
  ⟨by decide,
   (C10_load_data_extension (fun _ => (0 : Nat)) (fun _ => 1) "./data/CustomerCityPC.xlsx").1
     (by decide) (by decide),
   (C10_load_data_extension (fun _ => (0 : Nat)) (fun _ => 1) "./data/Customer.parquet").2
     (Or.inr (by decide))⟩

/-! ### Claim C4 -/

/-- C4 (amended): the grouping, joining and aggregation steps derive new
tables without touching the loaded ones, and the customer and postal tables
are unchanged, but the date-normalization step overwrites the Date column
of the two sales tables in place, coercing unparseable date cells to null;
when no date cell is unparseable text, the whole run leaves all four loaded
tables exactly as loaded. -/
theorem C4_frame (s : LoadedTables) :
    (runPipeline s).1.customer_data = s.customer_data
    ∧ (runPipeline s).1.postal_code_data = s.postal_code_data
    ∧ (runPipeline s).1.missed_sales
        = s.missed_sales.map (fun r => { r with date := toDatetime r.date })
    ∧ (runPipeline s).1.actual_sales
        = s.actual_sales.map (fun r => { r with date := toDatetime r.date })
    ∧ ((∀ r ∈ s.missed_sales, dateNotMalformed r.date = true) →
       (∀ r ∈ s.actual_sales, dateNotMalformed r.date = true) →
       (runPipeline s).1 = s) := by
  refine ⟨rfl, rfl, rfl, rfl, fun hm ha => ?_⟩
  show (⟨missed_sales_dated s.missed_sales, actual_sales_dated s.actual_sales,
      s.customer_data, s.postal_code_data⟩ : LoadedTables) = s
  have h1 : missed_sales_dated s.missed_sales = s.missed_sales := by
    unfold missed_sales_dated
    refine map_eq_self_of_fixed _ _ fun r hr => ?_
    have hnm := hm r hr
    cases r with
    | mk a b dt fl re =>
        cases dt with
        | null => rfl
        | malformed str => simp [dateNotMalformed] at hnm
        | valid y mo dd => rfl
  have h2 : actual_sales_dated s.actual_sales = s.actual_sales := by
    unfold actual_sales_dated
    refine map_eq_self_of_fixed _ _ fun r hr => ?_
    have hnm := ha r hr
    cases r with
    | mk a b dt =>
        cases dt with
        | null => rfl
        | malformed str => simp [dateNotMalformed] at hnm
        | valid y mo dd => rfl
  rw [h1, h2]

/-- C4 counterexample: a missed-sales table holding one row with the
unparseable date "2024-13-99" is not equal, after the run, to the table as
loaded: the date cell has been overwritten with null in place. -/
theorem C4_counterexample :
    (runPipeline ⟨[⟨1, .num 5, .malformed "2024-13-99", 1, some "stock 0"⟩],
        [], [], []⟩).1
      ≠ ⟨[⟨1, .num 5, .malformed "2024-13-99", 1, some "stock 0"⟩], [], [], []⟩ := by
  decide

/-- C4 witness: on loaded tables whose date cells are all well-formed, the
run leaves the state exactly as loaded. -/
theorem C4_frame_witness :
    (runPipeline ⟨[⟨1, .num 5, .valid 2024 1 15, 1, some "stock 0"⟩],
        [⟨1, .num 2, .null⟩], [⟨1, "Lid", "Gent", "9000"⟩], []⟩).1
      = ⟨[⟨1, .num 5, .valid 2024 1 15, 1, some "stock 0"⟩],
        [⟨1, .num 2, .null⟩], [⟨1, "Lid", "Gent", "9000"⟩], []⟩ :=
  (C4_frame _).2.2.2.2 (by decide) (by decide)

/-! ### Claim C2 -/

theorem cleanOf_customerNbr (r : MissedRow) (c : MissedCleanRow) (h : cleanOf r = some c) :
    c.customerNbr = r.customerNbr := by
  unfold cleanOf at h
  split at h
  · split at h
    · cases h
      rfl
    · exact Option.noConfusion h
  · exact Option.noConfusion h

theorem innerJoinMissed_restrict (ms : List MissedRow) (cust : List CustomerRow) :
    innerJoinMissed (missed_sales_clean (ms.filter (hasCustomerM cust))) cust
      = innerJoinMissed (missed_sales_clean ms) cust := by
  have hcomm : missed_sales_clean (ms.filter (hasCustomerM cust))
      = (missed_sales_clean ms).filter fun c =>
          cust.any fun cr => cr.customerNbr == c.customerNbr := by
    rw [missed_sales_clean_eq, missed_sales_clean_eq]
    refine filterMap_filter_comm ms cleanOf _ _ fun r c h => ?_
    unfold hasCustomerM
    rw [cleanOf_customerNbr r c h]
  rw [hcomm]
  exact join_filter_matched (missed_sales_clean ms) cust
    (fun r c => c.customerNbr == r.customerNbr) fun r c => (r, c)

theorem innerJoinActual_restrict (sales : List ActualRow) (cust : List CustomerRow) :
    innerJoinActual (actual_sales_dated (sales.filter (hasCustomerA cust))) cust
      = innerJoinActual (actual_sales_dated sales) cust := by
  have hcomm : actual_sales_dated (sales.filter (hasCustomerA cust))
      = (actual_sales_dated sales).filter (hasCustomerA cust) := by
    unfold actual_sales_dated
    exact map_filter_swap _ _ _ _ fun a _ => rfl
  rw [hcomm]
  exact join_filter_matched (actual_sales_dated sales) cust
    (fun r c => c.customerNbr == r.customerNbr) fun r c => (r, c)

theorem missed_query_restrict (ms : List MissedRow) (cust : List CustomerRow) :
    missed_sales_query (ms.filter (hasCustomerM cust)) cust
      = missed_sales_query ms cust := by
  unfold missed_sales_query
  have hcomm : (ms.filter (hasCustomerM cust)).filter (fun r => r.gemisteVerkoopFlg == 1)
      = (ms.filter fun r => r.gemisteVerkoopFlg == 1).filter (hasCustomerM cust) := by
    rw [List.filter_filter, List.filter_filter]
    exact List.filter_congr fun a _ => Bool.and_comm _ _
  rw [hcomm]
  exact join_filter_matched (ms.filter fun r => r.gemisteVerkoopFlg == 1) cust
    (fun r c => c.customerNbr == r.customerNbr) fun r c =>
      (⟨r.customerNbr, r.aantalBesteld, r.date, c.customerCity, c.customerPostalCode, (), ()⟩ :
        GeoRow Unit)

theorem actual_query_restrict (sales : List ActualRow) (cust : List CustomerRow) :
    actual_sales_query (sales.filter (hasCustomerA cust)) cust
      = actual_sales_query sales cust := by
  unfold actual_sales_query
  exact join_filter_matched sales cust
    (fun r c => c.customerNbr == r.customerNbr) fun r c =>
      (⟨r.customerNbr, r.saleQuantity, r.date, c.customerCity, c.customerPostalCode, (), ()⟩ :
        GeoRow Unit)

/-- C2 (amended): a sale-event row whose CustomerNbr has no matching row in
the Customer table contributes zero to every customer-joined grouped output
(ByCustomerType, ByCity and ByCityWithGeo, for both event types): removing
all such rows from an event table leaves those outputs unchanged.  It can
still contribute to MissedByMonthReason, which is computed before the
customer join. -/
theorem C2_unmatched_customer (ms : List MissedRow) (sales : List ActualRow)
    (cust : List CustomerRow) (postal : List PostalRow) :
    missed_sales_by_customer_type (ms.filter (hasCustomerM cust)) cust
        = missed_sales_by_customer_type ms cust
    ∧ actual_sales_by_customer_type (sales.filter (hasCustomerA cust)) cust
        = actual_sales_by_customer_type sales cust
    ∧ missed_sales_by_city (ms.filter (hasCustomerM cust)) cust
        = missed_sales_by_city ms cust
    ∧ actual_sales_by_city (sales.filter (hasCustomerA cust)) cust
        = actual_sales_by_city sales cust
    ∧ missed_sales_by_city_map (ms.filter (hasCustomerM cust)) cust postal
        = missed_sales_by_city_map ms cust postal
    ∧ actual_sales_by_city_map (sales.filter (hasCustomerA cust)) cust postal
        = actual_sales_by_city_map sales cust postal := by
  refine ⟨?_, ?_, ?_, ?_, ?_, ?_⟩
  · unfold missed_sales_by_customer_type
    rw [innerJoinMissed_restrict]
  · unfold actual_sales_by_customer_type
    rw [innerJoinActual_restrict]
  · unfold missed_sales_by_city
    rw [innerJoinMissed_restrict]
  · unfold actual_sales_by_city
    rw [innerJoinActual_restrict]
  · unfold missed_sales_by_city_map
    rw [missed_query_restrict]
  · unfold actual_sales_by_city_map
    rw [actual_query_restrict]

/-- C2 counterexample: a flag-1 missed-sale row whose CustomerNbr 1 has no
match in the (empty) customer table still contributes its quantity 5 to the
MissedByMonthReason output, so it does not contribute zero to every grouped
output. -/
theorem C2_counterexample :
    hasCustomerM [] ⟨1, .num 5, .valid 2024 1 15, 1, some "stock 0"⟩ = false
    ∧ lookupKey (missed_sales_by_time_reason
        [⟨1, .num 5, .valid 2024 1 15, 1, some "stock 0"⟩]) ((2024, 1), "stock 0")
      = some 5 := by
  constructor <;> decide

/-! ### Claim C5 -/

/-- C5: the two translation steps treat unmapped labels differently — a
Reason label absent from the reason dictionary is translated to null, and
its rows are dropped from the clean set feeding the month/reason
aggregation, whereas a CustomerType label absent from the customer-type
dictionary passes through unchanged and forms its own group in the
ByCustomerType output. -/
theorem C5_unmapped_labels (L T : String) (ms : List MissedRow) (cust : List CustomerRow)
    (hL : assocLookup reason_translation L = none)
    (hT : assocLookup customer_type_translations T = none) :
    mapTranslate reason_translation (some L) = none
    ∧ missed_sales_clean (ms.filter fun r => !(r.reason == some L)) = missed_sales_clean ms
    ∧ replaceTranslate customer_type_translations T = T
    ∧ (((innerJoinMissed (missed_sales_clean ms) cust).any fun p =>
          p.2.customerType == T) = true →
        ((missed_sales_by_customer_type ms cust).any fun p => p.1 == T) = true) := by
  refine ⟨hL, ?_, ?_, ?_⟩
  · rw [missed_sales_clean_eq, missed_sales_clean_eq]
    refine filterMap_filter_of_none ms cleanOf _ fun r hr hp => ?_
    have hre : r.reason = some L := by simpa using hp
    unfold cleanOf
    by_cases hf : r.gemisteVerkoopFlg = 1
    · rw [if_pos hf]
      cases hdd : toDatetime r.date <;> simp [hre, mapTranslate, hL]
    · rw [if_neg hf]
  · unfold replaceTranslate
    rw [hT]
    rfl
  · intro hany
    obtain ⟨p, hp, hpt⟩ := List.any_eq_true.mp hany
    unfold missed_sales_by_customer_type
    refine groupSum_any_key _ T (List.any_eq_true.mpr ?_)
    refine ⟨(replaceTranslate customer_type_translations p.2.customerType,
      p.1.aantalBesteld), List.mem_map.mpr ⟨p, hp, rfl⟩, ?_⟩
    have hct : p.2.customerType = T := beq_iff_eq.mp hpt
    rw [hct]
    unfold replaceTranslate
    rw [hT]
    simp

/-- C5 witness: the unmapped Reason "ghost reason" translates to null and
its rows are dropped, while the unmapped CustomerType "ghost type" passes
through and heads its own group of the ByCustomerType output. -/
theorem C5_witness :
    mapTranslate reason_translation (some "ghost reason") = none
    ∧ missed_sales_clean ([⟨1, .num 5, .valid 2024 1 15, 1, some "stock 0"⟩].filter
        fun r => !(r.reason == some "ghost reason"))
      = missed_sales_clean [⟨1, .num 5, .valid 2024 1 15, 1, some "stock 0"⟩]
    ∧ replaceTranslate customer_type_translations "ghost type" = "ghost type"
    ∧ ((missed_sales_by_customer_type [⟨1, .num 5, .valid 2024 1 15, 1, some "stock 0"⟩]
        [⟨1, "ghost type", "Gent", "9000"⟩]).any fun p => p.1 == "ghost type") = true := by
  have h := C5_unmapped_labels "ghost reason" "ghost type"
      [⟨1, .num 5, .valid 2024 1 15, 1, some "stock 0"⟩]
      [⟨1, "ghost type", "Gent", "9000"⟩] (by decide) (by decide)
  exact ⟨h.1, h.2.1, h.2.2.1, h.2.2.2 (by decide)⟩

/-! ### Claim C6 -/

/-- C6: the ByCity heatmap table and the ByCityWithGeo map table are built
from different row sets: the heatmap path drops the flag-1 row with a null
Date, the map path keeps it, so the same city reports total 3 in the
heatmap table and total 10 in the map table. -/
theorem C6_paths_differ :
    lookupKey (missed_sales_by_city
        [⟨1, .num 7, .null, 1, some "stock 0"⟩,
         ⟨1, .num 3, .valid 2024 1 10, 1, some "stock 0"⟩]
        [⟨1, "Lid", "Gent", "9000"⟩]) "Gent" = some 3
    ∧ cityTotalGeo (missed_sales_by_city_map
        [⟨1, .num 7, .null, 1, some "stock 0"⟩,
         ⟨1, .num 3, .valid 2024 1 10, 1, some "stock 0"⟩]
        [⟨1, "Lid", "Gent", "9000"⟩] [⟨"9000", some 51, some 4⟩]) "Gent" = 10 := by
  constructor <;> decide

/-! ### Claim C7 -/

theorem hits_nil_of_not_hasPostal {γ : Type} (postal : List PostalRow) (r : GeoRow γ)
    (h : hasPostal postal r = false) :
    (postal.filter fun p => p.customerPostalCode == r.customerPostalCode) = [] := by
  rw [List.filter_eq_nil_iff]
  intro p hp hpc
  have : hasPostal postal r = true := List.any_eq_true.mpr ⟨p, hp, hpc⟩
  rw [h] at this
  exact Bool.false_ne_true this

theorem mapClean_cons (r : GeoRow Unit) (rows : List (GeoRow Unit))
    (postal : List PostalRow) :
    mapClean (r :: rows) postal = mapClean [r] postal ++ mapClean rows postal := by
  unfold mapClean geoFilter fillCoords leftJoinPostal
  simp [List.flatMap_cons, List.map_append, List.filter_append]

theorem mapClean_singleton_unmatched (r : GeoRow Unit) (postal : List PostalRow)
    (h : hasPostal postal r = false) : mapClean [r] postal = [] := by
  unfold mapClean geoFilter fillCoords leftJoinPostal
  simp [hits_nil_of_not_hasPostal postal r h]

theorem mapClean_filter_matched (rows : List (GeoRow Unit)) (postal : List PostalRow) :
    mapClean (rows.filter (hasPostal postal)) postal = mapClean rows postal := by
  induction rows with
  | nil => rfl
  | cons r rows ih =>
      cases hr : hasPostal postal r
      · have he : (r :: rows).filter (hasPostal postal) = rows.filter (hasPostal postal) := by
          simp [List.filter_cons, hr]
        rw [he, ih, mapClean_cons, mapClean_singleton_unmatched r postal hr, List.nil_append]
      · have he : (r :: rows).filter (hasPostal postal)
            = r :: rows.filter (hasPostal postal) := by
          simp [List.filter_cons, hr]
        rw [he, mapClean_cons, ih, ← mapClean_cons]

theorem mapClean_mem_hasPostal (rows : List (GeoRow Unit)) (postal : List PostalRow) :
    ∀ x ∈ mapClean rows postal, hasPostal postal x = true := by
  induction rows with
  | nil =>
      intro x hx
      simp [mapClean, geoFilter, fillCoords, leftJoinPostal] at hx
  | cons r rows ih =>
      intro x hx
      rw [mapClean_cons] at hx
      rcases List.mem_append.mp hx with hx1 | hx2
      · cases hr : hasPostal postal r
        · rw [mapClean_singleton_unmatched r postal hr] at hx1
          simp at hx1
        · have hpc : x.customerPostalCode = r.customerPostalCode := by
            unfold mapClean geoFilter fillCoords leftJoinPostal at hx1
            rw [List.flatMap_cons, List.flatMap_nil, List.append_nil] at hx1
            obtain ⟨hx1', -⟩ := List.mem_filter.mp hx1
            obtain ⟨y, hy, rfl⟩ := List.mem_map.mp hx1'
            by_cases he : (postal.filter fun p =>
                p.customerPostalCode == r.customerPostalCode).isEmpty = true
            · rw [if_pos he] at hy
              obtain rfl := List.mem_singleton.mp hy
              rfl
            · rw [if_neg he] at hy
              obtain ⟨p, hp, rfl⟩ := List.mem_map.mp hy
              rfl
          unfold hasPostal at hr ⊢
          rw [hpc]
          exact hr
      · exact ih x hx2

/-- C7: a merged sale-event row whose CustomerPostalCode has no matching row
in the postal lookup table never contributes a row or any quantity to the
ByCityWithGeo output tables: every row surviving the sentinel filter has a
postal match, and dropping the unmatched merged rows beforehand leaves both
map outputs unchanged. -/
theorem C7_unmatched_postal (ms : List MissedRow) (sales : List ActualRow)
    (cust : List CustomerRow) (postal : List PostalRow) :
    (∀ x ∈ mapClean (missed_sales_query ms cust) postal, hasPostal postal x = true)
    ∧ missed_sales_by_city_map ms cust postal
        = by_city_geo (mapClean
            ((missed_sales_query ms cust).filter (hasPostal postal)) postal)
    ∧ (∀ x ∈ mapClean (actual_sales_query sales cust) postal, hasPostal postal x = true)
    ∧ actual_sales_by_city_map sales cust postal
        = by_city_geo (mapClean
            ((actual_sales_query sales cust).filter (hasPostal postal)) postal) := by
  refine ⟨mapClean_mem_hasPostal _ _, ?_, mapClean_mem_hasPostal _ _, ?_⟩
  · unfold missed_sales_by_city_map
    rw [mapClean_filter_matched]
  · unfold actual_sales_by_city_map
    rw [mapClean_filter_matched]

/-- C7 witness: on a one-row input whose postal code is in the lookup, the
single surviving map row indeed carries a matched postal code. -/
theorem C7_witness :
    hasPostal [⟨"9000", some 51, some 4⟩]
      (⟨1, .num 7, .valid 2024 1 1, "Gent", "9000", (51 : ℚ), (4 : ℚ)⟩ : GeoRow ℚ) = true :=
  (C7_unmatched_postal [⟨1, .num 7, .valid 2024 1 1, 1, some "stock 0"⟩] []
    [⟨1, "Lid", "Gent", "9000"⟩] [⟨"9000", some 51, some 4⟩]).1
    ⟨1, .num 7, .valid 2024 1 1, "Gent", "9000", (51 : ℚ), (4 : ℚ)⟩ (by decide)

/-! ### Claim C8 -/

/-- C8: every row of a ByCityWithGeo table carries marker size
`max(total / 10000, 1)`, which is at least 1; the marker size is a monotone
non-decreasing function of the total. -/
theorem C8_marker_size (ms : List MissedRow) (sales : List ActualRow)
    (cust : List CustomerRow) (postal : List PostalRow) :
    (∀ o ∈ missed_sales_by_city_map ms cust postal,
        o.markerSize = max ((o.total : ℚ) / 10000) 1 ∧ 1 ≤ o.markerSize)
    ∧ (∀ o ∈ actual_sales_by_city_map sales cust postal,
        o.markerSize = max ((o.total : ℚ) / 10000) 1 ∧ 1 ≤ o.markerSize)
    ∧ (∀ t t' : Int, t ≤ t' → markerSizeOf t ≤ markerSizeOf t') := by
  have hmem : ∀ (rows : List (GeoRow ℚ)), ∀ o ∈ by_city_geo rows,
      o.markerSize = max ((o.total : ℚ) / 10000) 1 ∧ 1 ≤ o.markerSize := by
    intro rows o ho
    obtain ⟨p, hp, rfl⟩ := List.mem_map.mp ho
    exact ⟨rfl, le_max_right _ _⟩
  refine ⟨fun o ho => hmem _ o ho, fun o ho => hmem _ o ho, fun t t' h => ?_⟩
  unfold markerSizeOf
  refine max_le_max ?_ le_rfl
  exact div_le_div_of_nonneg_right (by exact_mod_cast h) (by norm_num)

/-- C8 witness: marker sizes at the concrete totals 3 and 20000 respect the
monotonicity bound. -/
theorem C8_witness : markerSizeOf 3 ≤ markerSizeOf 20000 :=
  (C8_marker_size [] [] [] []).2.2 3 20000 (by decide)

/-! ### Claim C9 -/

theorem lookupKey_groupSum_perm {κ : Type} [DecidableEq κ]
    {keyed keyed' : List (κ × Option Int)} (h : keyed.Perm keyed') (k : κ) :
    lookupKey (groupSum keyed) k = lookupKey (groupSum keyed') k := by
  rw [lookupKey_groupSum, lookupKey_groupSum]
  exact groupVal_perm h k

theorem lookupGeo_by_city_geo (rows : List (GeoRow ℚ)) (k : String × ℚ × ℚ) :
    lookupGeo (by_city_geo rows) k
      = (groupVal (rows.map fun r =>
            ((r.customerCity, r.latitude, r.longitude), toNumeric r.qty)) k).map
          fun t => (t, markerSizeOf t) := by
  have hlk := lookupKey_groupSum (rows.map fun r =>
      ((r.customerCity, r.latitude, r.longitude), toNumeric r.qty)) k
  unfold lookupKey at hlk
  unfold lookupGeo by_city_geo
  rw [List.find?_map, Option.map_map, ← hlk, Option.map_map]
  rfl

theorem lookupGeo_by_city_geo_perm {rows rows' : List (GeoRow ℚ)}
    (h : rows.Perm rows') (k : String × ℚ × ℚ) :
    lookupGeo (by_city_geo rows) k = lookupGeo (by_city_geo rows') k := by
  rw [lookupGeo_by_city_geo, lookupGeo_by_city_geo, groupVal_perm (h.map _) k]

theorem missed_sales_clean_perm {ms ms' : List MissedRow} (h : ms.Perm ms') :
    (missed_sales_clean ms).Perm (missed_sales_clean ms') := by
  rw [missed_sales_clean_eq, missed_sales_clean_eq]
  exact h.filterMap _

theorem innerJoinMissed_perm {rows rows' : List MissedCleanRow}
    {cust cust' : List CustomerRow} (h1 : rows.Perm rows') (h2 : cust.Perm cust') :
    (innerJoinMissed rows cust).Perm (innerJoinMissed rows' cust') := by
  unfold innerJoinMissed
  refine (List.Perm.flatMap_right _ h1).trans ?_
  exact flatMap_perm_of_pointwise rows' _ _ fun r => (h2.filter _).map _

theorem innerJoinActual_perm {rows rows' : List ActualRow}
    {cust cust' : List CustomerRow} (h1 : rows.Perm rows') (h2 : cust.Perm cust') :
    (innerJoinActual rows cust).Perm (innerJoinActual rows' cust') := by
  unfold innerJoinActual
  refine (List.Perm.flatMap_right _ h1).trans ?_
  exact flatMap_perm_of_pointwise rows' _ _ fun r => (h2.filter _).map _

theorem missed_sales_query_perm {ms ms' : List MissedRow}
    {cust cust' : List CustomerRow} (h1 : ms.Perm ms') (h2 : cust.Perm cust') :
    (missed_sales_query ms cust).Perm (missed_sales_query ms' cust') := by
  unfold missed_sales_query
  refine (List.Perm.flatMap_right _ (h1.filter _)).trans ?_
  exact flatMap_perm_of_pointwise _ _ _ fun r => (h2.filter _).map _

theorem actual_sales_query_perm {sales sales' : List ActualRow}
    {cust cust' : List CustomerRow} (h1 : sales.Perm sales') (h2 : cust.Perm cust') :
    (actual_sales_query sales cust).Perm (actual_sales_query sales' cust') := by
  unfold actual_sales_query
  refine (List.Perm.flatMap_right _ h1).trans ?_
  exact flatMap_perm_of_pointwise _ _ _ fun r => (h2.filter _).map _

theorem leftJoinPostal_perm {rows rows' : List (GeoRow Unit)}
    {postal postal' : List PostalRow} (h1 : rows.Perm rows') (h2 : postal.Perm postal') :
    (leftJoinPostal rows postal).Perm (leftJoinPostal rows' postal') := by
  unfold leftJoinPostal
  refine (List.Perm.flatMap_right _ h1).trans ?_
  refine flatMap_perm_of_pointwise rows' _ _ fun r => ?_
  have hf := h2.filter fun p => p.customerPostalCode == r.customerPostalCode
  cases he : (postal.filter fun p => p.customerPostalCode == r.customerPostalCode).isEmpty
  · have he' : (postal'.filter fun p =>
        p.customerPostalCode == r.customerPostalCode).isEmpty = false := by
      cases he2 : (postal'.filter fun p =>
          p.customerPostalCode == r.customerPostalCode).isEmpty
      · rfl
      · exfalso
        rw [List.isEmpty_iff.mp he2] at hf
        have ht := List.isEmpty_iff.mpr hf.eq_nil
        rw [he] at ht
        exact Bool.false_ne_true ht
    rw [he', if_neg Bool.false_ne_true, if_neg Bool.false_ne_true]
    exact hf.map _
  · have e2 : (postal'.filter fun p =>
        p.customerPostalCode == r.customerPostalCode) = [] := by
      rw [List.isEmpty_iff.mp he] at hf
      exact hf.symm.eq_nil
    rw [List.isEmpty_iff.mpr e2, if_pos rfl, if_pos rfl]

theorem mapClean_perm {rows rows' : List (GeoRow Unit)}
    {postal postal' : List PostalRow} (h1 : rows.Perm rows') (h2 : postal.Perm postal') :
    (mapClean rows postal).Perm (mapClean rows' postal') := by
  unfold mapClean geoFilter fillCoords
  exact ((leftJoinPostal_perm h1 h2).map _).filter _

/-- C9: permuting the rows of any of the four input tables leaves the
key-to-total mapping of every aggregated output table unchanged
(MissedByMonthReason, the two ByCustomerType tables, the two ByCity tables,
and the two ByCityWithGeo tables with their totals and marker sizes). -/
theorem C9_perm_invariance (ms ms' : List MissedRow) (sales sales' : List ActualRow)
    (cust cust' : List CustomerRow) (postal postal' : List PostalRow)
    (hms : ms.Perm ms') (hsa : sales.Perm sales')
    (hcu : cust.Perm cust') (hpo : postal.Perm postal') :
    (∀ k, lookupKey (missed_sales_by_time_reason ms) k
        = lookupKey (missed_sales_by_time_reason ms') k)
    ∧ (∀ k, lookupKey (missed_sales_by_customer_type ms cust) k
        = lookupKey (missed_sales_by_customer_type ms' cust') k)
    ∧ (∀ k, lookupKey (actual_sales_by_customer_type sales cust) k
        = lookupKey (actual_sales_by_customer_type sales' cust') k)
    ∧ (∀ k, lookupKey (missed_sales_by_city ms cust) k
        = lookupKey (missed_sales_by_city ms' cust') k)
    ∧ (∀ k, lookupKey (actual_sales_by_city sales cust) k
        = lookupKey (actual_sales_by_city sales' cust') k)
    ∧ (∀ k, lookupGeo (missed_sales_by_city_map ms cust postal) k
        = lookupGeo (missed_sales_by_city_map ms' cust' postal') k)
    ∧ (∀ k, lookupGeo (actual_sales_by_city_map sales cust postal) k
        = lookupGeo (actual_sales_by_city_map sales' cust' postal') k) := by
  refine ⟨fun k => ?_, fun k => ?_, fun k => ?_, fun k => ?_, fun k => ?_,
    fun k => ?_, fun k => ?_⟩
  · exact lookupKey_groupSum_perm ((missed_sales_clean_perm hms).map _) k
  · exact lookupKey_groupSum_perm
      ((innerJoinMissed_perm (missed_sales_clean_perm hms) hcu).map _) k
  · exact lookupKey_groupSum_perm ((innerJoinActual_perm (hsa.map _) hcu).map _) k
  · exact lookupKey_groupSum_perm
      ((innerJoinMissed_perm (missed_sales_clean_perm hms) hcu).map _) k
  · exact lookupKey_groupSum_perm ((innerJoinActual_perm (hsa.map _) hcu).map _) k
  · exact lookupGeo_by_city_geo_perm
      (mapClean_perm (missed_sales_query_perm hms hcu) hpo) k
  · exact lookupGeo_by_city_geo_perm
      (mapClean_perm (actual_sales_query_perm hsa hcu) hpo) k

/-- C9 witness: swapping the rows of each input table leaves the grouped
totals at concrete keys unchanged. -/
theorem C9_witness :
    ([⟨1, .num 5, .valid 2024 1 15, 1, some "stock 0"⟩,
      ⟨2, .num 3, .valid 2024 1 20, 1, some "doorbesteld"⟩] : List MissedRow).Perm
      [⟨2, .num 3, .valid 2024 1 20, 1, some "doorbesteld"⟩,
       ⟨1, .num 5, .valid 2024 1 15, 1, some "stock 0"⟩]
    ∧ lookupKey (missed_sales_by_time_reason
        [⟨1, .num 5, .valid 2024 1 15, 1, some "stock 0"⟩,
         ⟨2, .num 3, .valid 2024 1 20, 1, some "doorbesteld"⟩]) ((2024, 1), "stock 0")
      = lookupKey (missed_sales_by_time_reason
        [⟨2, .num 3, .valid 2024 1 20, 1, some "doorbesteld"⟩,
         ⟨1, .num 5, .valid 2024 1 15, 1, some "stock 0"⟩]) ((2024, 1), "stock 0")
    ∧ lookupGeo (missed_sales_by_city_map
        [⟨1, .num 5, .valid 2024 1 15, 1, some "stock 0"⟩,
         ⟨2, .num 3, .valid 2024 1 20, 1, some "doorbesteld"⟩]
        [⟨1, "Lid", "Gent", "9000"⟩, ⟨2, "Webshop", "Luik", "4000"⟩]
        [⟨"9000", some 51, some 4⟩, ⟨"4000", some 50, some 5⟩]) ("Gent", 51, 4)
      = lookupGeo (missed_sales_by_city_map
        [⟨2, .num 3, .valid 2024 1 20, 1, some "doorbesteld"⟩,
         ⟨1, .num 5, .valid 2024 1 15, 1, some "stock 0"⟩]
        [⟨2, "Webshop", "Luik", "4000"⟩, ⟨1, "Lid", "Gent", "9000"⟩]
        [⟨"4000", some 50, some 5⟩, ⟨"9000", some 51, some 4⟩]) ("Gent", 51, 4) := by
  have h := C9_perm_invariance
      [⟨1, .num 5, .valid 2024 1 15, 1, some "stock 0"⟩,
       ⟨2, .num 3, .valid 2024 1 20, 1, some "doorbesteld"⟩]
      [⟨2, .num 3, .valid 2024 1 20, 1, some "doorbesteld"⟩,
       ⟨1, .num 5, .valid 2024 1 15, 1, some "stock 0"⟩]
      [⟨1, .num 4, .valid 2024 2 1⟩] [⟨1, .num 4, .valid 2024 2 1⟩]
      [⟨1, "Lid", "Gent", "9000"⟩, ⟨2, "Webshop", "Luik", "4000"⟩]
      [⟨2, "Webshop", "Luik", "4000"⟩, ⟨1, "Lid", "Gent", "9000"⟩]
      [⟨"9000", some 51, some 4⟩, ⟨"4000", some 50, some 5⟩]
      [⟨"4000", some 50, some 5⟩, ⟨"9000", some 51, some 4⟩]
      (by decide) (by decide) (by decide) (by decide)
  exact ⟨by decide, h.1 ((2024, 1), "stock 0"), h.2.2.2.2.2.1 ("Gent", 51, 4)⟩

end SmartChain
